import Mathlib

/-!
Shallow embedding of the TANAOROSHI-API-v2 batch mutation engine and
record-level integrity validator.

Sources embedded:
  * `src/app/models/koujyou_master.py` (table `m_koujyou`, composite PK and
    per-column `max_length` constraints)
  * `src/app/models/user.py` (table `m_user`)
  * `src/app/repositories/inventory_repository.py`
  * `src/app/repositories/user_repository.py`
  * `src/app/services/inventory_service.py`
  * `src/app/schemas/koujyou_master.py` (`CheckIntegrityResponse`)
  * `src/app/api/v1/endpoints/inventory.py`, `src/app/api/v1/endpoints/user.py`

Conventions of the embedding:
  * Dates (`datetime.date`) are modelled as `Nat` day ordinals; the Python
    `<`, `>`, `>=` comparisons on dates become the corresponding `Nat`
    comparisons.
  * The SQLAlchemy session is modelled as a pair of row lists:
    `committed` (durable state) and `pending` (state visible inside the open
    transaction, after flushes).  `begin_nested` captures `pending`;
    `savepoint.rollback()` restores it; `savepoint.commit()` keeps it;
    `session.rollback()` resets `pending` to `committed`;
    `session.commit()` copies `pending` into `committed`.
  * The store enforces the constraints declared on the SQLModel tables:
    the composite primary-key uniqueness of `m_koujyou` and the per-column
    `max_length` limits (`DataError` on violation, `IntegrityError` on a
    duplicate key), as a PostgreSQL backend would.
  * Fallible calls return `Except` values; an `HTTPException` is modelled by
    its status code.
-/

namespace Tanaoroshi

/-- A factory-master row / payload.  The request schema `KoujyouMasterBase`
(`schemas/koujyou_master.py`) and the table model `KoujyouMaster`
(`models/koujyou_master.py`) declare exactly the same fields, and the
repository builds rows by `KoujyouMaster(**data.model_dump())`, so one Lean
structure serves for both.  The five key fields are required, the eight
attribute fields are `Optional[str]`. -/
structure KoujyouMaster where
  previous_factory_code : String
  company_code : String
  product_factory_code : String
  start_operation_date : Nat
  end_operation_date : Nat
  previous_factory_name : Option String := none
  product_factory_name : Option String := none
  material_department_code : Option String := none
  environmental_information : Option String := none
  authentication_flag : Option String := none
  group_corporate_code : Option String := none
  integration_pattern : Option String := none
  hulftid : Option String := none
deriving DecidableEq, Repr

/-- The request schema type; structurally identical to the row type. -/
abbrev KoujyouMasterBase := KoujyouMaster

/-- The composite-primary-key condition used by
`InventoryRepository.get_by_unique_keys` (inventory_repository.py:106-124):
equality on previous_factory_code, product_factory_code,
start_operation_date, company_code and end_operation_date. -/
def matchesUniqueKeys (d r : KoujyouMaster) : Bool :=
  r.previous_factory_code == d.previous_factory_code &&
  r.product_factory_code == d.product_factory_code &&
  r.start_operation_date == d.start_operation_date &&
  r.company_code == d.company_code &&
  r.end_operation_date == d.end_operation_date

/-- The (previous_factory_code, product_factory_code, company_code) triple
condition of `InventoryRepository.get_time_related_records`
(inventory_repository.py:85-104). -/
def matchesTriple (d r : KoujyouMaster) : Bool :=
  r.previous_factory_code == d.previous_factory_code &&
  r.product_factory_code == d.product_factory_code &&
  r.company_code == d.company_code

/-- `get_by_unique_keys` over the rows visible to the session: `.first()` of
the filtered select. -/
def getByUniqueKeys (rows : List KoujyouMaster) (d : KoujyouMasterBase) :
    Option KoujyouMaster :=
  (rows.filter (matchesUniqueKeys d)).head?

/-- `get_time_related_records`: all rows sharing the factory/factory/company
triple. -/
def getTimeRelatedRecords (rows : List KoujyouMaster) (d : KoujyouMasterBase) :
    List KoujyouMaster :=
  rows.filter (matchesTriple d)

/-- Column `max_length` constraints declared on the `m_koujyou` table
(models/koujyou_master.py:20-34).  A flush that writes a row violating one of
them is rejected by the store with a `DataError`. -/
def koujyouRowFits (r : KoujyouMaster) : Bool :=
  r.previous_factory_code.length ≤ 4 &&
  r.company_code.length ≤ 4 &&
  r.product_factory_code.length ≤ 4 &&
  (r.previous_factory_name.getD "").length ≤ 100 &&
  (r.product_factory_name.getD "").length ≤ 100 &&
  (r.material_department_code.getD "").length ≤ 4 &&
  (r.environmental_information.getD "").length ≤ 100 &&
  (r.authentication_flag.getD "").length ≤ 100 &&
  (r.group_corporate_code.getD "").length ≤ 4 &&
  (r.integration_pattern.getD "").length ≤ 100 &&
  (r.hulftid.getD "").length ≤ 100

/-- One entry of an `error_records` list, as built in every batch method:
a dict with keys level / message / detail / code / record, `record` holding
the original input payload. -/
structure ErrRecord (α : Type) where
  level : String
  message : String
  detail : String
  code : String
  record : α
deriving DecidableEq, Repr

/-- The dict returned by every repository batch method:
`{"ok_records": ..., "error_records": ...}`. -/
structure BatchResult (ρ α : Type) where
  ok_records : List ρ
  error_records : List (ErrRecord α)
deriving DecidableEq, Repr

/-- The session state visible to one request: `committed` is the durable
store, `pending` the in-transaction view (kept equal to `committed` until the
call flushes writes). -/
structure DbSession (ρ : Type) where
  committed : List ρ
  pending : List ρ
deriving DecidableEq, Repr

/-- The `error_records` entry built for a `NotFoundError`
(inventory delete: inventory_repository.py:368-374, user update/delete:
user_repository.py:157-163 and 313-319). -/
def notFoundErr (detail : String) (record : α) : ErrRecord α :=
  { level := "E", message := "Record not found", detail := detail
    code := "NotFoundError", record := record }

/-- The `error_records` entry built from a store exception in the
`except` branch shared by all batch methods.  `code` is `type(e).__name__`
(no `pgcode` attribute is present off PostgreSQL, so the `PG…` rewrite does
not fire in the modelled driver-neutral behaviour); `message` and `detail`
both come from the exception text. -/
def storeErr (code msg : String) (record : α) : ErrRecord α :=
  { level := "E", message := msg, detail := msg, code := code
    record := record }

/-- The uniqueness -violation entry (SQLAlchemy `IntegrityError`). -/
def integrityErr (record : α) : ErrRecord α :=
  storeErr "IntegrityError" "duplicate key value violates unique constraint" record

/-- The length -violation entry (SQLAlchemy `DataError`). -/
def dataErr (record : α) : ErrRecord α :=
  storeErr "DataError" "value too long for type character varying" record

/-- The epilogue shared verbatim by all six batch methods
(e.g. inventory_repository.py:248-258): if `error_records` is non-empty the
whole session is rolled back; otherwise, if anything succeeded, the
transaction is committed; otherwise neither happens. -/
def finalizeBatch (s : DbSession ρ) (okEmpty errEmpty : Bool)
    (pending' : List ρ) : DbSession ρ :=
  if !errEmpty then
    { committed := s.committed, pending := s.committed }
  else if !okEmpty then
    { committed := pending', pending := pending' }
  else
    { s with pending := pending' }

/-- The body shared by all six batch methods: run the per-record loop over
the session's pending rows, then the epilogue. -/
def runBatch (s : DbSession ρ)
    (loop : List ρ → List α → List β × List (ErrRecord α) × List ρ)
    (inputs : List α) : BatchResult β α × DbSession ρ :=
  let out := loop s.pending inputs
  (⟨out.1, out.2.1⟩, finalizeBatch s out.1.isEmpty out.2.1.isEmpty out.2.2)

/-- Replace the first row satisfying `p` by `new` (the effect of flushing an
`UPDATE` of the ORM object found by the lookup). -/
def replaceFirst (p : ρ → Bool) (new : ρ) : List ρ → List ρ
  | [] => []
  | r :: rs => if p r then new :: rs else r :: replaceFirst p new rs

/-- Remove the first row satisfying `p` (the effect of flushing a
`session.delete`). -/
def removeFirst (p : ρ → Bool) : List ρ → List ρ
  | [] => []
  | r :: rs => if p r then rs else r :: removeFirst p rs

/-! ### Factory-master batch mutations (`inventory_repository.py`) -/

/-- The per-record loop of `InventoryRepository.update_koujyou_master_batch`
(inventory_repository.py:205-246).  For each payload: look the row up by its
unique keys; **if absent, `continue` — nothing is appended for this record**
(lines 206-208); otherwise open a savepoint, apply every dumped field to the
row (the payload carries all five key fields, so the key is rewritten to
itself and only attribute columns change; `exclude_unset` merging is
modelled as a full overwrite, which does not affect any property proved
here), flush — a declared-length violation makes the store raise `DataError`,
rolling back just this savepoint — and on success commit the savepoint and
append the updated row to `ok_records`.
Returns (ok_records, error_records, pending rows after the loop). -/
def updateKoujyouLoop :
    List KoujyouMaster → List KoujyouMasterBase →
    List KoujyouMaster × List (ErrRecord KoujyouMasterBase) × List KoujyouMaster
  | pending, [] => ([], [], pending)
  | pending, d :: rest =>
    match getByUniqueKeys pending d with
    | none => updateKoujyouLoop pending rest
    | some _ =>
      if koujyouRowFits d then
        let out := updateKoujyouLoop (replaceFirst (matchesUniqueKeys d) d pending) rest
        (d :: out.1, out.2.1, out.2.2)
      else
        let out := updateKoujyouLoop pending rest
        (out.1, dataErr d :: out.2.1, out.2.2)

/-- `InventoryRepository.update_koujyou_master_batch`
(inventory_repository.py:190-264): run the loop, then the shared epilogue
(rollback the whole transaction when any record errored, commit when at
least one succeeded and none errored). -/
def update_koujyou_master_batch (s : DbSession KoujyouMaster)
    (inputs : List KoujyouMasterBase) :
    BatchResult KoujyouMaster KoujyouMasterBase × DbSession KoujyouMaster :=
  runBatch s updateKoujyouLoop inputs

/-- The per-record loop of `InventoryRepository.create_multiple_koujyou_master`
(inventory_repository.py:281-328).  The existence pre-check is commented out
in the source (lines 282-293), so every payload goes straight to a savepoint
and an insert; the store rejects a row violating a declared column length
(`DataError`) or duplicating the composite primary key (`IntegrityError`),
and the per-record handler turns that into an `error_records` entry. -/
def createKoujyouLoop :
    List KoujyouMaster → List KoujyouMasterBase →
    List KoujyouMaster × List (ErrRecord KoujyouMasterBase) × List KoujyouMaster
  | pending, [] => ([], [], pending)
  | pending, d :: rest =>
    if !koujyouRowFits d then
      let out := createKoujyouLoop pending rest
      (out.1, dataErr d :: out.2.1, out.2.2)
    else if (getByUniqueKeys pending d).isSome then
      let out := createKoujyouLoop pending rest
      (out.1, integrityErr d :: out.2.1, out.2.2)
    else
      let out := createKoujyouLoop (pending ++ [d]) rest
      (d :: out.1, out.2.1, out.2.2)

/-- `InventoryRepository.create_multiple_koujyou_master`
(inventory_repository.py:266-346). -/
def create_multiple_koujyou_master (s : DbSession KoujyouMaster)
    (inputs : List KoujyouMasterBase) :
    BatchResult KoujyouMaster KoujyouMasterBase × DbSession KoujyouMaster :=
  runBatch s createKoujyouLoop inputs

/-- The per-record loop of `InventoryRepository.delete_multiple_koujyou_master`
(inventory_repository.py:363-409): look the row up by its unique keys; if
absent append a `NotFoundError` entry and continue; otherwise delete it under
a savepoint and append the fetched row to `ok_records` (the `m_koujyou` table
has no foreign-key constraints, so a flushed delete cannot fail in this
schema). -/
def deleteKoujyouLoop :
    List KoujyouMaster → List KoujyouMasterBase →
    List KoujyouMaster × List (ErrRecord KoujyouMasterBase) × List KoujyouMaster
  | pending, [] => ([], [], pending)
  | pending, d :: rest =>
    match getByUniqueKeys pending d with
    | none =>
      let out := deleteKoujyouLoop pending rest
      (out.1,
       notFoundErr "A record with the specified primary key does not exist" d :: out.2.1,
       out.2.2)
    | some dbItem =>
      let out := deleteKoujyouLoop (removeFirst (matchesUniqueKeys d) pending) rest
      (dbItem :: out.1, out.2.1, out.2.2)

/-- `InventoryRepository.delete_multiple_koujyou_master`
(inventory_repository.py:348-424). -/
def delete_multiple_koujyou_master (s : DbSession KoujyouMaster)
    (inputs : List KoujyouMasterBase) :
    BatchResult KoujyouMaster KoujyouMasterBase × DbSession KoujyouMaster :=
  runBatch s deleteKoujyouLoop inputs

/-! ### User batch mutations (`user_repository.py`) -/

/-- A row of the `m_user` table (models/user.py): a non-null string primary
key (defaulted to a fresh UUID when the payload leaves it unset) and five
nullable attribute columns with no length constraints. -/
structure UserRow where
  id : String
  name : Option String := none
  lastname : Option String := none
  age : Option Int := none
  country : Option String := none
  home_address : Option String := none
deriving DecidableEq, Repr

/-- The request schema `UserBase` (schemas/user.py): every field optional,
`id` defaulting to null. -/
structure UserBase where
  id : Option String := none
  name : Option String := none
  lastname : Option String := none
  age : Option Int := none
  country : Option String := none
  home_address : Option String := none
deriving DecidableEq, Repr

/-- `UserRepository.get_by_id` (user_repository.py:60-73): `None` for a null
id, else `.first()` of the rows with that id. -/
def getById (rows : List UserRow) : Option String → Option UserRow
  | none => none
  | some i => (rows.filter (·.id == i)).head?

/-- The row written by a user update: the id is preserved (the payload's id
equals the fetched row's id) and the attribute fields are taken from the
payload (`exclude_unset` merging modelled as a full overwrite, not
load-bearing for the properties proved here). -/
def applyUserUpdate (dbItem : UserRow) (d : UserBase) : UserRow :=
  { id := dbItem.id, name := d.name, lastname := d.lastname, age := d.age
    country := d.country, home_address := d.home_address }

/-- The per-record loop of `UserRepository.update_user_batch`
(user_repository.py:154-202): absent id ⟹ append a `NotFoundError` entry and
continue; present ⟹ update under a savepoint and append the updated row
(`m_user` declares no column constraints an update could violate, so the
flush cannot fail in this schema). -/
def userUpdateLoop :
    List UserRow → List UserBase →
    List UserRow × List (ErrRecord UserBase) × List UserRow
  | pending, [] => ([], [], pending)
  | pending, d :: rest =>
    match getById pending d.id with
    | none =>
      let out := userUpdateLoop pending rest
      (out.1, notFoundErr "A record with the specified ID does not exist" d :: out.2.1, out.2.2)
    | some dbItem =>
      let updated := applyUserUpdate dbItem d
      let out := userUpdateLoop (replaceFirst (·.id == dbItem.id) updated pending) rest
      (updated :: out.1, out.2.1, out.2.2)

/-- `UserRepository.update_user_batch` (user_repository.py:139-220). -/
def update_user_batch (s : DbSession UserRow) (inputs : List UserBase) :
    BatchResult UserRow UserBase × DbSession UserRow :=
  runBatch s userUpdateLoop inputs

/-- The per-record loop of `UserRepository.create_multiple_user`
(user_repository.py:237-273): build the row (a null id receives the column's
UUID default at flush, modelled as the fresh, per-call-unique id
`"uuid-" ++ n`), insert under a savepoint; a duplicate id makes the store
raise `IntegrityError`, handled per-record. -/
def userCreateLoop :
    List UserRow → Nat → List UserBase →
    List UserRow × List (ErrRecord UserBase) × List UserRow
  | pending, _, [] => ([], [], pending)
  | pending, n, d :: rest =>
    let theId := d.id.getD ("uuid-" ++ toString n)
    let row : UserRow :=
      { id := theId, name := d.name, lastname := d.lastname, age := d.age
        country := d.country, home_address := d.home_address }
    if (pending.filter (·.id == theId)).isEmpty then
      let out := userCreateLoop (pending ++ [row]) (n + 1) rest
      (row :: out.1, out.2.1, out.2.2)
    else
      let out := userCreateLoop pending (n + 1) rest
      (out.1, integrityErr d :: out.2.1, out.2.2)

/-- `UserRepository.create_multiple_user` (user_repository.py:222-291). -/
def create_multiple_user (s : DbSession UserRow) (inputs : List UserBase) :
    BatchResult UserRow UserBase × DbSession UserRow :=
  runBatch s (fun pending inputs => userCreateLoop pending 0 inputs) inputs

/-- The per-record loop of `UserRepository.delete_multiple_user`
(user_repository.py:308-354): absent id ⟹ append a `NotFoundError` entry
and continue; present ⟹ delete under a savepoint and append the fetched
row. -/
def userDeleteLoop :
    List UserRow → List UserBase →
    List UserRow × List (ErrRecord UserBase) × List UserRow
  | pending, [] => ([], [], pending)
  | pending, d :: rest =>
    match getById pending d.id with
    | none =>
      let out := userDeleteLoop pending rest
      (out.1, notFoundErr "A record with the specified ID does not exist" d :: out.2.1, out.2.2)
    | some dbItem =>
      let out := userDeleteLoop (removeFirst (·.id == dbItem.id) pending) rest
      (dbItem :: out.1, out.2.1, out.2.2)

/-- `UserRepository.delete_multiple_user` (user_repository.py:293-369). -/
def delete_multiple_user (s : DbSession UserRow) (inputs : List UserBase) :
    BatchResult UserRow UserBase × DbSession UserRow :=
  runBatch s userDeleteLoop inputs

/-! ### HTTP boundary (`api/v1/endpoints/user.py`, `api/v1/endpoints/inventory.py`)

The service layer (`user_service.py`, `inventory_service.py`) relays the
repository dict unchanged, re-validating each `ok_records` row through a
field-identical response schema, so the endpoints are modelled directly over
the repository results. -/

/-- The envelope produced by `ApiResponse.success` and
`ApiResponse.create_error` (schemas/response.py:24-84).  Every batch endpoint
with a non-empty `error_records` list sets HTTP 400 and returns
`create_error` with the *whole* repository result dict as `details`. -/
inductive ApiResult (δ : Type) where
  | success (code : Nat) (data : δ)
  | clientError (code : Nat) (details : δ)
deriving DecidableEq, Repr

namespace Endpoints

/-- `PUT /user/list` (user.py:168-201). -/
def update_user_list (s : DbSession UserRow) (inputs : List UserBase) :
    ApiResult (BatchResult UserRow UserBase) × DbSession UserRow :=
  let out := update_user_batch s inputs
  if !out.1.error_records.isEmpty then (.clientError 400 out.1, out.2)
  else (.success 200 out.1, out.2)

/-- `POST /user/list` (user.py:126-159). -/
def create_user_list (s : DbSession UserRow) (inputs : List UserBase) :
    ApiResult (BatchResult UserRow UserBase) × DbSession UserRow :=
  let out := create_multiple_user s inputs
  if !out.1.error_records.isEmpty then (.clientError 400 out.1, out.2)
  else (.success 200 out.1, out.2)

/-- `DELETE /user/list` (user.py:210-243). -/
def delete_user_list (s : DbSession UserRow) (inputs : List UserBase) :
    ApiResult (BatchResult UserRow UserBase) × DbSession UserRow :=
  let out := delete_multiple_user s inputs
  if !out.1.error_records.isEmpty then (.clientError 400 out.1, out.2)
  else (.success 200 out.1, out.2)

/-- `PUT /inventory/record/multiple` (inventory.py:171-204). -/
def update_koujyou_master_batch (s : DbSession KoujyouMaster)
    (inputs : List KoujyouMasterBase) :
    ApiResult (BatchResult KoujyouMaster KoujyouMasterBase) × DbSession KoujyouMaster :=
  let out := Tanaoroshi.update_koujyou_master_batch s inputs
  if !out.1.error_records.isEmpty then (.clientError 400 out.1, out.2)
  else (.success 200 out.1, out.2)

/-- `POST /inventory/record/multiple` (inventory.py:213-246). -/
def create_multiple_koujyou_master (s : DbSession KoujyouMaster)
    (inputs : List KoujyouMasterBase) :
    ApiResult (BatchResult KoujyouMaster KoujyouMasterBase) × DbSession KoujyouMaster :=
  let out := Tanaoroshi.create_multiple_koujyou_master s inputs
  if !out.1.error_records.isEmpty then (.clientError 400 out.1, out.2)
  else (.success 200 out.1, out.2)

/-- `DELETE /inventory/record/multiple` (inventory.py:255-288). -/
def delete_multiple_koujyou_master (s : DbSession KoujyouMaster)
    (inputs : List KoujyouMasterBase) :
    ApiResult (BatchResult KoujyouMaster KoujyouMasterBase) × DbSession KoujyouMaster :=
  let out := Tanaoroshi.delete_multiple_koujyou_master s inputs
  if !out.1.error_records.isEmpty then (.clientError 400 out.1, out.2)
  else (.success 200 out.1, out.2)

end Endpoints

/-! ### Single-record factory create (`inventory_service.py:90-128`) -/

/-- `InventoryService.create_koujyou_master`: unlike the batch path, the
single-record create runs an explicit `get_by_unique_keys` pre-check and
raises HTTP 409 before any insert is attempted; only then does it insert and
commit (a store rejection of the insert itself is caught by the generic
handler as HTTP 500, leaving the transaction to be discarded). -/
def create_koujyou_master (s : DbSession KoujyouMaster) (d : KoujyouMasterBase) :
    Except Nat KoujyouMaster × DbSession KoujyouMaster :=
  if (getByUniqueKeys s.pending d).isSome then
    (.error 409, s)
  else if koujyouRowFits d then
    (.ok d, ⟨s.pending ++ [d], s.pending ++ [d]⟩)
  else
    (.error 500, s)

/-! ### Integrity validator (`inventory_service.py:394-616`) -/

/-- The response schema `CheckIntegrityResponse` as *declared* at
schemas/koujyou_master.py:53-56: only the two sequences `error_codes` and
`error_messages`.  The `pk_detail` and `error_data` keyword arguments the
service passes to the constructor are extra fields and are dropped by the
schema library, and reading `response.error_data` afterwards raises an
`AttributeError`. -/
structure CheckIntegrityResponse where
  error_codes : List String
  error_messages : List String
deriving DecidableEq, Repr

/-- The structured detail payload the rule code pushes onto
`response.error_data` for one violation. -/
inductive ErrorData where
  | empty
  | lengthInfo (field_name : String) (max_length actual_length : Nat)
  | pkConflicted (pk : String)
deriving DecidableEq, Repr

/-- One violation as the rule code decides it: the triple pushed in lockstep
onto `error_codes`, `error_messages` and `error_data`. -/
structure Violation where
  code : String
  message : String
  data : ErrorData
deriving DecidableEq, Repr

/-- `_format_pk_details` (inventory_service.py:31-41). -/
def formatPkDetails (r : KoujyouMaster) : String :=
  r.company_code ++ " / " ++ r.previous_factory_code ++ " / " ++
    r.product_factory_code ++ " / " ++ toString r.start_operation_date ++
    " / " ++ toString r.end_operation_date

/-- The PK rule (inventory_service.py:434-439): look the candidate up by its
full unique-key tuple; found ⟹ one `PK_CHECK_FAILED` violation with an empty
detail dict. -/
def pkViolations (cand : KoujyouMasterBase) (store : List KoujyouMaster) :
    List Violation :=
  match getByUniqueKeys store cand with
  | some _ => [⟨"PK_CHECK_FAILED", "プライマリキーが存在しません", .empty⟩]
  | none => []

/-- The per-field validation data `_validate_datatypes`
(inventory_service.py:458-579) reads off the `m_koujyou` model by
reflection, restricted to the string fields (the two date fields carry
actual dates in every schema-validated candidate and can never trip the
type test): field name, declared `max_length`, accessor.  Listed in model
declaration order. -/
def strFieldTable :
    List (String × Nat × (KoujyouMasterBase → Option String)) :=
  [("previous_factory_code", 4, fun d => some d.previous_factory_code),
   ("company_code", 4, fun d => some d.company_code),
   ("product_factory_code", 4, fun d => some d.product_factory_code),
   ("previous_factory_name", 100, fun d => d.previous_factory_name),
   ("product_factory_name", 100, fun d => d.product_factory_name),
   ("material_department_code", 4, fun d => d.material_department_code),
   ("environmental_information", 100, fun d => d.environmental_information),
   ("authentication_flag", 100, fun d => d.authentication_flag),
   ("group_corporate_code", 4, fun d => d.group_corporate_code),
   ("integration_pattern", 100, fun d => d.integration_pattern),
   ("hulftid", 100, fun d => d.hulftid)]

/-- The datatype rule on a schema-validated candidate: `None` in an optional
column is allowed (the declared type contains `None`); a present string whose
length exceeds the declared `max_length` yields one
`DATATYPE_CHECK_FAILED_LENGTH` violation (inventory_service.py:544-558);
the runtime-type comparisons cannot fail because the candidate is already
typed by the request schema. -/
def datatypeViolations (cand : KoujyouMasterBase) : List Violation :=
  strFieldTable.filterMap fun fld =>
    match fld.2.2 cand with
    | none => none
    | some s =>
      if s.length > fld.2.1 then
        some ⟨"DATATYPE_CHECK_FAILED_LENGTH",
              "フィールド " ++ fld.1 ++ " の長さが最大値 " ++ toString fld.2.1 ++
                " を超えています（実際: " ++ toString s.length ++ "）",
              .lengthInfo fld.1 fld.2.1 s.length⟩
      else none

/-- The fully-disjoint test of `_validate_time_logic`
(inventory_service.py:605-610): the candidate interval is entirely before or
entirely after the sibling interval, with strict inequality on all four
boundary comparisons in each direction. -/
def fullyDisjoint (nStart nEnd rStart rEnd : Nat) : Bool :=
  (decide (nStart < rStart) && decide (nStart < rEnd) &&
   decide (nEnd < rStart) && decide (nEnd < rEnd)) ||
  (decide (nStart > rStart) && decide (nStart > rEnd) &&
   decide (nEnd > rStart) && decide (nEnd > rEnd))

/-- The conflict violation pushed for one sibling row
(inventory_service.py:612-616), carrying the sibling's formatted key. -/
def conflictViolation (r : KoujyouMaster) : Violation :=
  ⟨"TIME_LOGIC_CHECK_CONFLICTED",
    "時間ロジックが一致しません: " ++ r.company_code ++ " / " ++
      r.previous_factory_code ++ " / " ++ r.product_factory_code ++ " / " ++
      toString r.start_operation_date ++ " / " ++ toString r.end_operation_date,
    .pkConflicted (formatPkDetails r)⟩

/-- The time-logic rule `_validate_time_logic`
(inventory_service.py:581-616): a candidate with start ≥ end yields the
single `TIME_LOGIC_CHECK_INVALID` violation and returns at once (no sibling
fetch); otherwise every stored row sharing the factory/factory/company
triple whose interval is not fully disjoint from the candidate's contributes
one `TIME_LOGIC_CHECK_CONFLICTED` violation, in store order. -/
def timeLogicViolations (cand : KoujyouMasterBase) (store : List KoujyouMaster) :
    List Violation :=
  if cand.start_operation_date ≥ cand.end_operation_date then
    [⟨"TIME_LOGIC_CHECK_INVALID", "運用開始日が運用終了日より後です",
      .pkConflicted (formatPkDetails cand)⟩]
  else
    (getTimeRelatedRecords store cand).filterMap fun r =>
      if fullyDisjoint cand.start_operation_date cand.end_operation_date
          r.start_operation_date r.end_operation_date then
        none
      else
        some (conflictViolation r)

/-- All violations the enabled rules decide, in the fixed order
PK → datatype → time-logic (inventory_service.py:434-445). -/
def checkViolations (cand : KoujyouMasterBase)
    (pk_check datatype_check time_logic_check : Bool)
    (store : List KoujyouMaster) : List Violation :=
  (if pk_check then pkViolations cand store else []) ++
  (if datatype_check then datatypeViolations cand else []) ++
  (if time_logic_check then timeLogicViolations cand store else [])

/-- `InventoryService.check_integrity` (inventory_service.py:394-456) as it
actually executes: the constructor's `pk_detail` / `error_data` kwargs are
dropped by the declared schema, so the emission of the *first* violation —
which appends to `error_codes`, then `error_messages`, then
`response.error_data` — raises `AttributeError` at the third append; the
`except` handler turns it into an HTTP 500.  A candidate with no violation
under the enabled rules returns the response, whose two declared lists are
still empty. -/
def check_integrity (cand : KoujyouMasterBase)
    (pk_check datatype_check time_logic_check : Bool)
    (store : List KoujyouMaster) : Except Nat CheckIntegrityResponse :=
  match checkViolations cand pk_check datatype_check time_logic_check store with
  | [] => .ok ⟨[], []⟩
  | _ :: _ => .error 500

/-! ### Concrete fixtures used by witnesses and counterexamples -/

/-- A well-formed factory row (every column within its declared length). -/
def sampleRow : KoujyouMaster :=
  { previous_factory_code := "PF01", company_code := "C1"
    product_factory_code := "KK1", start_operation_date := 10
    end_operation_date := 20 }

/-- A payload with `sampleRow`'s key whose `material_department_code`
exceeds the declared `max_length` of 4. -/
def sampleTooLong : KoujyouMasterBase :=
  { sampleRow with material_department_code := some "ABCDE" }

/-- A factory row sharing `sampleRow`'s triple with a disjoint later
interval. -/
def sampleLater : KoujyouMaster :=
  { sampleRow with start_operation_date := 30, end_operation_date := 40 }

/-- A payload sharing `sampleRow`'s triple whose interval overlaps
`sampleRow`'s. -/
def sampleOverlap : KoujyouMasterBase :=
  { sampleRow with start_operation_date := 15, end_operation_date := 25 }

/-- A payload whose start date is not strictly before its end date. -/
def sampleInverted : KoujyouMasterBase :=
  { sampleRow with start_operation_date := 20, end_operation_date := 20 }

/-- A stored user. -/
def sampleUserRow : UserRow := { id := "u1", name := some "John" }

/-- An update/delete payload for `sampleUserRow`. -/
def sampleUserHit : UserBase := { id := some "u1", name := some "Johnny" }

/-- A payload whose id matches no stored user. -/
def sampleUserMiss : UserBase := { id := some "nope" }

/-- Tag recording what one input occurrence contributed during the single
in-order pass of a batch loop: a success row, an error entry, or (factory
batch update only) nothing. -/
inductive Outcome (ρ α : Type) where
  | ok (row : ρ)
  | err (e : ErrRecord α)
  | skipped
deriving DecidableEq, Repr

/-- The success row of an outcome, if any. -/
def okOf : Outcome ρ α → Option ρ
  | .ok r => some r
  | .err _ => none
  | .skipped => none

/-- The error entry of an outcome, if any. -/
def errOf : Outcome ρ α → Option (ErrRecord α)
  | .ok _ => none
  | .err e => some e
  | .skipped => none

/-- Tie between one input occurrence of the user batch update and the
outcome recorded for it: a success is the updated row — it carries the id
named by that input and that input's attribute fields — an error entry
carries that input itself in its `record` field, and no occurrence is
skipped. -/
def userUpdateTie (d : UserBase) : Outcome UserRow UserBase → Prop
  | .ok row =>
      d.id = some row.id ∧
      row = { id := row.id, name := d.name, lastname := d.lastname
              age := d.age, country := d.country, home_address := d.home_address }
  | .err e => e.record = d
  | .skipped => False

/-- Tie for the user batch create: a success row carries that input's
attribute fields, and that input's id whenever it supplied one (a null id
receives the column's generated default); an error entry carries that input;
no occurrence is skipped. -/
def userCreateTie (d : UserBase) : Outcome UserRow UserBase → Prop
  | .ok row =>
      row = { id := row.id, name := d.name, lastname := d.lastname
              age := d.age, country := d.country, home_address := d.home_address } ∧
      ∀ i, d.id = some i → row.id = i
  | .err e => e.record = d
  | .skipped => False

/-- Tie for the user batch delete: a success is the deleted row, whose id is
the one named by that input; an error entry carries that input; no
occurrence is skipped. -/
def userDeleteTie (d : UserBase) : Outcome UserRow UserBase → Prop
  | .ok row => d.id = some row.id
  | .err e => e.record = d
  | .skipped => False

/-- Tie for the factory batch update: a success row is the updated row,
i.e. that input's payload itself (every dumped field applied over the
matching-key row); an error entry carries that input; an absent-key input is
skipped with no outcome. -/
def koujyouUpdateTie (d : KoujyouMasterBase) :
    Outcome KoujyouMaster KoujyouMasterBase → Prop
  | .ok row => row = d
  | .err e => e.record = d
  | .skipped => True

/-- Tie for the factory batch create: a success row is that input's payload;
an error entry carries that input; no occurrence is skipped. -/
def koujyouCreateTie (d : KoujyouMasterBase) :
    Outcome KoujyouMaster KoujyouMasterBase → Prop
  | .ok row => row = d
  | .err e => e.record = d
  | .skipped => False

/-- Tie for the factory batch delete: a success is the deleted row, which
matches that input on the full natural-key tuple; an error entry carries
that input; no occurrence is skipped. -/
def koujyouDeleteTie (d : KoujyouMasterBase) :
    Outcome KoujyouMaster KoujyouMasterBase → Prop
  | .ok row => matchesUniqueKeys d row = true
  | .err e => e.record = d
  | .skipped => False

/-! ### Shared lemmas about the batch scaffolding -/

theorem isEmpty_false_of_ne_nil {α : Type} {l : List α} (h : l ≠ []) :
    l.isEmpty = false := by
  cases l with
  | nil => exact absurd rfl h
  | cons a l => rfl

theorem runBatch_result {ρ α β : Type} (s : DbSession ρ)
    (loop : List ρ → List α → List β × List (ErrRecord α) × List ρ)
    (inputs : List α) :
    (runBatch s loop inputs).1 =
      ⟨(loop s.pending inputs).1, (loop s.pending inputs).2.1⟩ := rfl

theorem runBatch_rollback {ρ α β : Type} (s : DbSession ρ)
    (loop : List ρ → List α → List β × List (ErrRecord α) × List ρ)
    (inputs : List α) (h : (loop s.pending inputs).2.1 ≠ []) :
    (runBatch s loop inputs).2 = ⟨s.committed, s.committed⟩ := by
  unfold runBatch finalizeBatch
  simp [isEmpty_false_of_ne_nil h]

/-! ### Claim C1 -/

/-- C1: for every batch mutation (batch create, batch update, batch delete,
over users or factory records), if the returned `error_records` list is
non-empty then the enclosing transaction is rolled back and no effect of any
record in the batch — including those reported in `ok_records` — is
persisted: the session after the call is exactly the pre-call durable store
(both its committed rows and its transaction view). -/
theorem c1_error_batches_roll_back_everything :
    (∀ (s : DbSession KoujyouMaster) (inputs : List KoujyouMasterBase),
      ((update_koujyou_master_batch s inputs).1.error_records ≠ [] →
        (update_koujyou_master_batch s inputs).2 = ⟨s.committed, s.committed⟩) ∧
      ((create_multiple_koujyou_master s inputs).1.error_records ≠ [] →
        (create_multiple_koujyou_master s inputs).2 = ⟨s.committed, s.committed⟩) ∧
      ((delete_multiple_koujyou_master s inputs).1.error_records ≠ [] →
        (delete_multiple_koujyou_master s inputs).2 = ⟨s.committed, s.committed⟩)) ∧
    (∀ (s : DbSession UserRow) (inputs : List UserBase),
      ((update_user_batch s inputs).1.error_records ≠ [] →
        (update_user_batch s inputs).2 = ⟨s.committed, s.committed⟩) ∧
      ((create_multiple_user s inputs).1.error_records ≠ [] →
        (create_multiple_user s inputs).2 = ⟨s.committed, s.committed⟩) ∧
      ((delete_multiple_user s inputs).1.error_records ≠ [] →
        (delete_multiple_user s inputs).2 = ⟨s.committed, s.committed⟩)) := by
  constructor
  · intro s inputs
    exact ⟨fun h => runBatch_rollback s updateKoujyouLoop inputs h,
           fun h => runBatch_rollback s createKoujyouLoop inputs h,
           fun h => runBatch_rollback s deleteKoujyouLoop inputs h⟩
  · intro s inputs
    exact ⟨fun h => runBatch_rollback s userUpdateLoop inputs h,
           fun h => runBatch_rollback s (fun p i => userCreateLoop p 0 i) inputs h,
           fun h => runBatch_rollback s userDeleteLoop inputs h⟩

/-- Concrete instantiation of `c1_error_batches_roll_back_everything`: each
of the six batch mutations, run on a session holding one row and on an input
that makes one record fail, reports a non-empty `error_records` list and
leaves the store exactly as it was. -/
theorem c1_error_batches_roll_back_everything_witness :
    ((update_koujyou_master_batch ⟨[sampleRow], [sampleRow]⟩ [sampleTooLong]).1.error_records ≠ [] ∧
      (update_koujyou_master_batch ⟨[sampleRow], [sampleRow]⟩ [sampleTooLong]).2 =
        ⟨[sampleRow], [sampleRow]⟩) ∧
    ((create_multiple_koujyou_master ⟨[sampleRow], [sampleRow]⟩ [sampleRow]).1.error_records ≠ [] ∧
      (create_multiple_koujyou_master ⟨[sampleRow], [sampleRow]⟩ [sampleRow]).2 =
        ⟨[sampleRow], [sampleRow]⟩) ∧
    ((delete_multiple_koujyou_master ⟨[], []⟩ [sampleRow]).1.error_records ≠ [] ∧
      (delete_multiple_koujyou_master ⟨[], []⟩ [sampleRow]).2 = ⟨[], []⟩) ∧
    ((update_user_batch ⟨[], []⟩ [sampleUserMiss]).1.error_records ≠ [] ∧
      (update_user_batch ⟨[], []⟩ [sampleUserMiss]).2 = ⟨[], []⟩) ∧
    ((create_multiple_user ⟨[sampleUserRow], [sampleUserRow]⟩ [sampleUserHit]).1.error_records ≠ [] ∧
      (create_multiple_user ⟨[sampleUserRow], [sampleUserRow]⟩ [sampleUserHit]).2 =
        ⟨[sampleUserRow], [sampleUserRow]⟩) ∧
    ((delete_multiple_user ⟨[], []⟩ [sampleUserMiss]).1.error_records ≠ [] ∧
      (delete_multiple_user ⟨[], []⟩ [sampleUserMiss]).2 = ⟨[], []⟩) :=
  ⟨⟨by decide,
    (c1_error_batches_roll_back_everything.1 ⟨[sampleRow], [sampleRow]⟩ [sampleTooLong]).1
      (by decide)⟩,
   ⟨by decide,
    (c1_error_batches_roll_back_everything.1 ⟨[sampleRow], [sampleRow]⟩ [sampleRow]).2.1
      (by decide)⟩,
   ⟨by decide,
    (c1_error_batches_roll_back_everything.1 ⟨[], []⟩ [sampleRow]).2.2 (by decide)⟩,
   ⟨by decide,
    (c1_error_batches_roll_back_everything.2 ⟨[], []⟩ [sampleUserMiss]).1 (by decide)⟩,
   ⟨by decide,
    (c1_error_batches_roll_back_everything.2 ⟨[sampleUserRow], [sampleUserRow]⟩ [sampleUserHit]).2.1
      (by decide)⟩,
   ⟨by decide,
    (c1_error_batches_roll_back_everything.2 ⟨[], []⟩ [sampleUserMiss]).2.2 (by decide)⟩⟩

/-! ### Claim C2 -/

theorem userUpdateLoop_length :
    ∀ (inputs : List UserBase) (pending : List UserRow),
      (userUpdateLoop pending inputs).1.length +
        (userUpdateLoop pending inputs).2.1.length = inputs.length := by
  intro inputs
  induction inputs with
  | nil => intro pending; rfl
  | cons d rest ih =>
    intro pending
    cases h : getById pending d.id with
    | none =>
      simp only [userUpdateLoop, h]
      have := ih pending
      simp only [List.length_cons]
      omega
    | some dbItem =>
      simp only [userUpdateLoop, h]
      have := ih (replaceFirst (·.id == dbItem.id) (applyUserUpdate dbItem d) pending)
      simp only [List.length_cons]
      omega

theorem userDeleteLoop_length :
    ∀ (inputs : List UserBase) (pending : List UserRow),
      (userDeleteLoop pending inputs).1.length +
        (userDeleteLoop pending inputs).2.1.length = inputs.length := by
  intro inputs
  induction inputs with
  | nil => intro pending; rfl
  | cons d rest ih =>
    intro pending
    cases h : getById pending d.id with
    | none =>
      simp only [userDeleteLoop, h]
      have := ih pending
      simp only [List.length_cons]
      omega
    | some dbItem =>
      simp only [userDeleteLoop, h]
      have := ih (removeFirst (·.id == dbItem.id) pending)
      simp only [List.length_cons]
      omega

theorem userCreateLoop_length :
    ∀ (inputs : List UserBase) (pending : List UserRow) (n : Nat),
      (userCreateLoop pending n inputs).1.length +
        (userCreateLoop pending n inputs).2.1.length = inputs.length := by
  intro inputs
  induction inputs with
  | nil => intro pending n; rfl
  | cons d rest ih =>
    intro pending n
    simp only [userCreateLoop]
    by_cases h :
        (pending.filter
          (·.id == d.id.getD ("uuid-" ++ toString n))).isEmpty = true
    · have := ih
        (pending ++
          [{ id := d.id.getD ("uuid-" ++ toString n), name := d.name
             lastname := d.lastname, age := d.age, country := d.country
             home_address := d.home_address }]) (n + 1)
      simp only [h, if_true, List.length_cons]
      omega
    · simp only [Bool.not_eq_true] at h
      have := ih pending (n + 1)
      simp only [h, Bool.false_eq_true, if_false, List.length_cons]
      omega

theorem createKoujyouLoop_length :
    ∀ (inputs : List KoujyouMasterBase) (pending : List KoujyouMaster),
      (createKoujyouLoop pending inputs).1.length +
        (createKoujyouLoop pending inputs).2.1.length = inputs.length := by
  intro inputs
  induction inputs with
  | nil => intro pending; rfl
  | cons d rest ih =>
    intro pending
    simp only [createKoujyouLoop]
    by_cases hf : koujyouRowFits d
    · by_cases hk : (getByUniqueKeys pending d).isSome
      · have := ih pending
        simp only [hf, hk, Bool.not_true, Bool.false_eq_true, if_false, if_true,
          List.length_cons]
        omega
      · simp only [Bool.not_eq_true] at hk
        have := ih (pending ++ [d])
        simp only [hf, hk, Bool.not_true, Bool.false_eq_true, if_false,
          List.length_cons]
        omega
    · simp only [Bool.not_eq_true] at hf
      have := ih pending
      simp only [hf, Bool.not_false, if_true, List.length_cons]
      omega

theorem deleteKoujyouLoop_length :
    ∀ (inputs : List KoujyouMasterBase) (pending : List KoujyouMaster),
      (deleteKoujyouLoop pending inputs).1.length +
        (deleteKoujyouLoop pending inputs).2.1.length = inputs.length := by
  intro inputs
  induction inputs with
  | nil => intro pending; rfl
  | cons d rest ih =>
    intro pending
    cases h : getByUniqueKeys pending d with
    | none =>
      simp only [deleteKoujyouLoop, h]
      have := ih pending
      simp only [List.length_cons]
      omega
    | some dbItem =>
      simp only [deleteKoujyouLoop, h]
      have := ih (removeFirst (matchesUniqueKeys d) pending)
      simp only [List.length_cons]
      omega

theorem updateKoujyouLoop_length_le :
    ∀ (inputs : List KoujyouMasterBase) (pending : List KoujyouMaster),
      (updateKoujyouLoop pending inputs).1.length +
        (updateKoujyouLoop pending inputs).2.1.length ≤ inputs.length := by
  intro inputs
  induction inputs with
  | nil => intro pending; simp [updateKoujyouLoop]
  | cons d rest ih =>
    intro pending
    cases h : getByUniqueKeys pending d with
    | none =>
      simp only [updateKoujyouLoop, h]
      have := ih pending
      simp only [List.length_cons]
      omega
    | some dbItem =>
      simp only [updateKoujyouLoop, h]
      by_cases hf : koujyouRowFits d
      · have := ih (replaceFirst (matchesUniqueKeys d) d pending)
        simp only [hf, if_true, List.length_cons]
        omega
      · simp only [Bool.not_eq_true] at hf
        have := ih pending
        simp only [hf, Bool.false_eq_true, if_false, List.length_cons]
        omega

/-- C2 counterexample: the claim "the lengths of the returned `ok_records`
and `error_records` lists sum to the length of the input list" fails on the
factory batch update: one payload whose key is absent from an empty store
contributes no outcome at all, so both returned lists are empty against an
input of length one. -/
theorem c2_counterexample :
    ¬ ((update_koujyou_master_batch ⟨[], []⟩ [sampleRow]).1.ok_records.length +
        (update_koujyou_master_batch ⟨[], []⟩ [sampleRow]).1.error_records.length =
        ([sampleRow] : List KoujyouMasterBase).length) := by decide

/-- C2 (amended): for the user batch create/update/delete and the factory
batch create/delete, `len ok_records + len error_records = len input`, and an
empty input returns two empty lists untouched; the factory batch update only
satisfies `len ok_records + len error_records ≤ len input`, because a record
whose key is absent from the store is skipped without producing any
outcome. -/
theorem c2_outcome_counts :
    (∀ (s : DbSession UserRow) (inputs : List UserBase),
      (update_user_batch s inputs).1.ok_records.length +
        (update_user_batch s inputs).1.error_records.length = inputs.length ∧
      (create_multiple_user s inputs).1.ok_records.length +
        (create_multiple_user s inputs).1.error_records.length = inputs.length ∧
      (delete_multiple_user s inputs).1.ok_records.length +
        (delete_multiple_user s inputs).1.error_records.length = inputs.length) ∧
    (∀ (s : DbSession KoujyouMaster) (inputs : List KoujyouMasterBase),
      (create_multiple_koujyou_master s inputs).1.ok_records.length +
        (create_multiple_koujyou_master s inputs).1.error_records.length = inputs.length ∧
      (delete_multiple_koujyou_master s inputs).1.ok_records.length +
        (delete_multiple_koujyou_master s inputs).1.error_records.length = inputs.length ∧
      (update_koujyou_master_batch s inputs).1.ok_records.length +
        (update_koujyou_master_batch s inputs).1.error_records.length ≤ inputs.length) ∧
    (∀ (s : DbSession UserRow),
      update_user_batch s [] = (⟨[], []⟩, s) ∧
      create_multiple_user s [] = (⟨[], []⟩, s) ∧
      delete_multiple_user s [] = (⟨[], []⟩, s)) ∧
    (∀ (s : DbSession KoujyouMaster),
      update_koujyou_master_batch s [] = (⟨[], []⟩, s) ∧
      create_multiple_koujyou_master s [] = (⟨[], []⟩, s) ∧
      delete_multiple_koujyou_master s [] = (⟨[], []⟩, s)) := by
  refine ⟨fun s inputs => ⟨?_, ?_, ?_⟩, fun s inputs => ⟨?_, ?_, ?_⟩,
          fun s => ⟨rfl, rfl, rfl⟩, fun s => ⟨rfl, rfl, rfl⟩⟩
  · exact userUpdateLoop_length inputs s.pending
  · exact userCreateLoop_length inputs s.pending 0
  · exact userDeleteLoop_length inputs s.pending
  · exact createKoujyouLoop_length inputs s.pending
  · exact deleteKoujyouLoop_length inputs s.pending
  · exact updateKoujyouLoop_length_le inputs s.pending

/-! ### Claim C3 -/

/-- C3 counterexample: on the factory batch update, one payload whose key is
absent from an empty store is skipped silently — `error_records` stays empty
and carries no `NotFoundError` outcome, refuting the claim for this batch
mutation. -/
theorem c3_counterexample :
    getByUniqueKeys ([] : List KoujyouMaster) sampleRow = none ∧
    (update_koujyou_master_batch ⟨[], []⟩ [sampleRow]).1.error_records = [] := by
  decide

/-- C3 (amended): on the user batch update, the user batch delete and the
factory batch delete, an input record whose key is absent from the store
appends exactly the `Error(code=NotFoundError, message="Record not found")`
outcome to `error_records` and processing continues with the remaining
records unchanged; the factory batch update instead skips such a record
silently, appending nothing to either list. -/
theorem c3_not_found_outcomes :
    (∀ (pending : List UserRow) (d : UserBase) (rest : List UserBase),
      getById pending d.id = none →
      userUpdateLoop pending (d :: rest) =
        ((userUpdateLoop pending rest).1,
         notFoundErr "A record with the specified ID does not exist" d ::
           (userUpdateLoop pending rest).2.1,
         (userUpdateLoop pending rest).2.2)) ∧
    (∀ (pending : List UserRow) (d : UserBase) (rest : List UserBase),
      getById pending d.id = none →
      userDeleteLoop pending (d :: rest) =
        ((userDeleteLoop pending rest).1,
         notFoundErr "A record with the specified ID does not exist" d ::
           (userDeleteLoop pending rest).2.1,
         (userDeleteLoop pending rest).2.2)) ∧
    (∀ (pending : List KoujyouMaster) (d : KoujyouMasterBase)
        (rest : List KoujyouMasterBase),
      getByUniqueKeys pending d = none →
      deleteKoujyouLoop pending (d :: rest) =
        ((deleteKoujyouLoop pending rest).1,
         notFoundErr "A record with the specified primary key does not exist" d ::
           (deleteKoujyouLoop pending rest).2.1,
         (deleteKoujyouLoop pending rest).2.2)) ∧
    (∀ (pending : List KoujyouMaster) (d : KoujyouMasterBase)
        (rest : List KoujyouMasterBase),
      getByUniqueKeys pending d = none →
      updateKoujyouLoop pending (d :: rest) = updateKoujyouLoop pending rest) := by
  refine ⟨fun pending d rest h => ?_, fun pending d rest h => ?_,
          fun pending d rest h => ?_, fun pending d rest h => ?_⟩
  · simp only [userUpdateLoop, h]
  · simp only [userDeleteLoop, h]
  · simp only [deleteKoujyouLoop, h]
  · simp only [updateKoujyouLoop, h]

/-- Concrete instantiation of `c3_not_found_outcomes` on an empty store. -/
theorem c3_not_found_outcomes_witness :
    userUpdateLoop [] [sampleUserMiss] =
      ([], [notFoundErr "A record with the specified ID does not exist" sampleUserMiss], []) ∧
    userDeleteLoop [] [sampleUserMiss] =
      ([], [notFoundErr "A record with the specified ID does not exist" sampleUserMiss], []) ∧
    deleteKoujyouLoop [] [sampleRow] =
      ([], [notFoundErr "A record with the specified primary key does not exist" sampleRow], []) ∧
    updateKoujyouLoop [] [sampleRow] = updateKoujyouLoop [] [] :=
  ⟨c3_not_found_outcomes.1 [] sampleUserMiss [] (by decide),
   c3_not_found_outcomes.2.1 [] sampleUserMiss [] (by decide),
   c3_not_found_outcomes.2.2.1 [] sampleRow [] (by decide),
   c3_not_found_outcomes.2.2.2 [] sampleRow [] (by decide)⟩

/-! ### Claim C4 -/

/-- C4 counterexample: a user batch delete in which the first record succeeds
and the second is missing returns the client-error response, but its payload
carries the accumulated `ok_records` list of length one — not an empty one as
the claim states. -/
theorem c4_counterexample :
    (Endpoints.delete_user_list ⟨[sampleUserRow], [sampleUserRow]⟩
        [sampleUserHit, sampleUserMiss]).1 =
      ApiResult.clientError 400
        ⟨[sampleUserRow],
         [notFoundErr "A record with the specified ID does not exist" sampleUserMiss]⟩ ∧
    (⟨[sampleUserRow],
      [notFoundErr "A record with the specified ID does not exist" sampleUserMiss]⟩ :
        BatchResult UserRow UserBase).ok_records ≠ [] := by
  decide

/-- C4 (amended): any batch mutation call in which at least one record fails
is surfaced as a client-error (HTTP 400) response whose payload is the whole
repository result — the full `error_records` detail together with the
`ok_records` accumulated before the rollback, which may be non-empty.  The
rollback (claim C1) still prevents any persisted partial success, but the
payload does not present an empty `ok_records` list. -/
theorem c4_client_error_with_accumulated_ok :
    (∀ (s : DbSession UserRow) (inputs : List UserBase),
      ((update_user_batch s inputs).1.error_records ≠ [] →
        (Endpoints.update_user_list s inputs).1 =
          .clientError 400 (update_user_batch s inputs).1) ∧
      ((create_multiple_user s inputs).1.error_records ≠ [] →
        (Endpoints.create_user_list s inputs).1 =
          .clientError 400 (create_multiple_user s inputs).1) ∧
      ((delete_multiple_user s inputs).1.error_records ≠ [] →
        (Endpoints.delete_user_list s inputs).1 =
          .clientError 400 (delete_multiple_user s inputs).1)) ∧
    (∀ (s : DbSession KoujyouMaster) (inputs : List KoujyouMasterBase),
      ((update_koujyou_master_batch s inputs).1.error_records ≠ [] →
        (Endpoints.update_koujyou_master_batch s inputs).1 =
          .clientError 400 (update_koujyou_master_batch s inputs).1) ∧
      ((create_multiple_koujyou_master s inputs).1.error_records ≠ [] →
        (Endpoints.create_multiple_koujyou_master s inputs).1 =
          .clientError 400 (create_multiple_koujyou_master s inputs).1) ∧
      ((delete_multiple_koujyou_master s inputs).1.error_records ≠ [] →
        (Endpoints.delete_multiple_koujyou_master s inputs).1 =
          .clientError 400 (delete_multiple_koujyou_master s inputs).1)) := by
  constructor
  · intro s inputs
    refine ⟨fun h => ?_, fun h => ?_, fun h => ?_⟩
    · simp [Endpoints.update_user_list, isEmpty_false_of_ne_nil h]
    · simp [Endpoints.create_user_list, isEmpty_false_of_ne_nil h]
    · simp [Endpoints.delete_user_list, isEmpty_false_of_ne_nil h]
  · intro s inputs
    refine ⟨fun h => ?_, fun h => ?_, fun h => ?_⟩
    · simp [Endpoints.update_koujyou_master_batch, isEmpty_false_of_ne_nil h]
    · simp [Endpoints.create_multiple_koujyou_master, isEmpty_false_of_ne_nil h]
    · simp [Endpoints.delete_multiple_koujyou_master, isEmpty_false_of_ne_nil h]

/-- Concrete instantiation of `c4_client_error_with_accumulated_ok` on each
of the six batch endpoints. -/
theorem c4_client_error_with_accumulated_ok_witness :
    (Endpoints.update_user_list ⟨[], []⟩ [sampleUserMiss]).1 =
      .clientError 400 (update_user_batch ⟨[], []⟩ [sampleUserMiss]).1 ∧
    (Endpoints.create_user_list ⟨[sampleUserRow], [sampleUserRow]⟩ [sampleUserHit]).1 =
      .clientError 400
        (create_multiple_user ⟨[sampleUserRow], [sampleUserRow]⟩ [sampleUserHit]).1 ∧
    (Endpoints.delete_user_list ⟨[], []⟩ [sampleUserMiss]).1 =
      .clientError 400 (delete_multiple_user ⟨[], []⟩ [sampleUserMiss]).1 ∧
    (Endpoints.update_koujyou_master_batch ⟨[sampleRow], [sampleRow]⟩ [sampleTooLong]).1 =
      .clientError 400
        (update_koujyou_master_batch ⟨[sampleRow], [sampleRow]⟩ [sampleTooLong]).1 ∧
    (Endpoints.create_multiple_koujyou_master ⟨[sampleRow], [sampleRow]⟩ [sampleRow]).1 =
      .clientError 400
        (create_multiple_koujyou_master ⟨[sampleRow], [sampleRow]⟩ [sampleRow]).1 ∧
    (Endpoints.delete_multiple_koujyou_master ⟨[], []⟩ [sampleRow]).1 =
      .clientError 400 (delete_multiple_koujyou_master ⟨[], []⟩ [sampleRow]).1 :=
  ⟨(c4_client_error_with_accumulated_ok.1 ⟨[], []⟩ [sampleUserMiss]).1 (by decide),
   (c4_client_error_with_accumulated_ok.1 ⟨[sampleUserRow], [sampleUserRow]⟩
      [sampleUserHit]).2.1 (by decide),
   (c4_client_error_with_accumulated_ok.1 ⟨[], []⟩ [sampleUserMiss]).2.2 (by decide),
   (c4_client_error_with_accumulated_ok.2 ⟨[sampleRow], [sampleRow]⟩
      [sampleTooLong]).1 (by decide),
   (c4_client_error_with_accumulated_ok.2 ⟨[sampleRow], [sampleRow]⟩
      [sampleRow]).2.1 (by decide),
   (c4_client_error_with_accumulated_ok.2 ⟨[], []⟩ [sampleRow]).2.2 (by decide)⟩

/-! ### Claim C5 -/

/-- C5: the claim describes the intended result shape — three parallel
sequences `error_codes` / `error_messages` / `error_data` with one entry per
violation at the same index, exactly what the rule code pushes violation by
violation — but the declared `CheckIntegrityResponse` schema has no
`error_data` field, so emitting the first violation raises on the
`error_data` append and the call surfaces HTTP 500.  Consequently a
successfully returned result always carries two empty sequences, and a
candidate with any violation (here: an inverted date range with
`time_logic_check` enabled) yields `.error 500` instead of the three-list
result the claim requires. -/
theorem c5_parallel_shape_unreturnable :
    (∀ (cand : KoujyouMasterBase) (pk dt tl : Bool) (store : List KoujyouMaster)
        (resp : CheckIntegrityResponse),
      check_integrity cand pk dt tl store = .ok resp →
        resp.error_codes = [] ∧ resp.error_messages = []) ∧
    check_integrity sampleInverted false false true [] = .error 500 := by
  constructor
  · intro cand pk dt tl store resp h
    unfold check_integrity at h
    cases hv : checkViolations cand pk dt tl store with
    | nil =>
      rw [hv] at h
      injection h with h2
      rw [← h2]
      exact ⟨rfl, rfl⟩
    | cons v vs =>
      rw [hv] at h
      exact Except.noConfusion h
  · rfl

/-- Concrete instantiation of `c5_parallel_shape_unreturnable`: a clean
candidate with every check disabled returns the response with its two
declared sequences empty. -/
theorem c5_parallel_shape_unreturnable_witness :
    (⟨[], []⟩ : CheckIntegrityResponse).error_codes = [] ∧
    (⟨[], []⟩ : CheckIntegrityResponse).error_messages = [] :=
  c5_parallel_shape_unreturnable.1 sampleRow false false false [] ⟨[], []⟩ rfl

/-! ### Claim C6 -/

theorem getByUniqueKeys_isSome_iff (store : List KoujyouMaster)
    (cand : KoujyouMasterBase) :
    (getByUniqueKeys store cand).isSome = true ↔
      ∃ r ∈ store, matchesUniqueKeys cand r = true := by
  constructor
  · intro h
    cases hf : store.filter (matchesUniqueKeys cand) with
    | nil =>
      rw [getByUniqueKeys, hf] at h
      simp at h
    | cons x xs =>
      have hx : x ∈ store.filter (matchesUniqueKeys cand) := by
        rw [hf]; exact List.mem_cons_self x xs
      have := List.mem_filter.mp hx
      exact ⟨x, this.1, this.2⟩
  · rintro ⟨r, hr, hm⟩
    rw [getByUniqueKeys]
    cases hf : store.filter (matchesUniqueKeys cand) with
    | nil =>
      have : r ∈ store.filter (matchesUniqueKeys cand) := List.mem_filter.mpr ⟨hr, hm⟩
      rw [hf] at this
      cases this
    | cons x xs => rfl

/-- C6: the PK rule decides a `PK_CHECK_FAILED` violation exactly when some
stored row matches the candidate on the full natural-key tuple, and a
candidate with no such row (pk_check alone enabled) comes back clean — but
when a match exists the violation cannot be returned: the `error_data`
append raises and `check_integrity` surfaces HTTP 500 (the concrete
conjunct), instead of a result carrying the violation as the claim states. -/
theorem c6_pk_check_existence :
    (∀ (cand : KoujyouMasterBase) (store : List KoujyouMaster),
      pkViolations cand store ≠ [] ↔ ∃ r ∈ store, matchesUniqueKeys cand r = true) ∧
    check_integrity sampleRow true false false [sampleRow] = .error 500 ∧
    (∀ (cand : KoujyouMasterBase) (store : List KoujyouMaster),
      getByUniqueKeys store cand = none →
      check_integrity cand true false false store = .ok ⟨[], []⟩) := by
  refine ⟨fun cand store => ?_, rfl, fun cand store h => ?_⟩
  · rw [← getByUniqueKeys_isSome_iff store cand]
    unfold pkViolations
    cases h : getByUniqueKeys store cand with
    | none => simp
    | some r => simp
  · unfold check_integrity checkViolations pkViolations
    rw [h]
    rfl

/-- Concrete instantiation of `c6_pk_check_existence`: on an empty store the
pk-only check returns the clean response. -/
theorem c6_pk_check_existence_witness :
    check_integrity sampleRow true false false [] = .ok ⟨[], []⟩ :=
  c6_pk_check_existence.2.2 sampleRow [] rfl

/-! ### Claim C7 -/

/-- C7: the time-logic rule on a candidate whose start date is not strictly
before its end date decides exactly one `TIME_LOGIC_CHECK_INVALID` violation
and returns immediately — the result is the same singleton for *every* store
contents, so no sibling fetch or overlap comparison takes place — but the
call itself surfaces HTTP 500 (the concrete conjunct) because emitting the
violation raises on the missing `error_data` field, instead of yielding a
result carrying the violation as the claim states. -/
theorem c7_invalid_short_circuits :
    (∀ (cand : KoujyouMasterBase) (store : List KoujyouMaster),
      cand.end_operation_date ≤ cand.start_operation_date →
      timeLogicViolations cand store =
        [⟨"TIME_LOGIC_CHECK_INVALID", "運用開始日が運用終了日より後です",
          .pkConflicted (formatPkDetails cand)⟩]) ∧
    check_integrity sampleInverted false false true [sampleLater] = .error 500 := by
  constructor
  · intro cand store h
    unfold timeLogicViolations
    rw [if_pos h]
  · rfl

/-- Concrete instantiation of `c7_invalid_short_circuits`: an inverted
candidate against a store holding an overlappable sibling still yields
exactly the one invalid-interval violation. -/
theorem c7_invalid_short_circuits_witness :
    timeLogicViolations sampleInverted [sampleLater] =
      [⟨"TIME_LOGIC_CHECK_INVALID", "運用開始日が運用終了日より後です",
        .pkConflicted (formatPkDetails sampleInverted)⟩] :=
  c7_invalid_short_circuits.1 sampleInverted [sampleLater] (by decide)

/-! ### Claim C8 -/

theorem filterMap_if_eq_filter_map {α β : Type} (p : α → Bool) (f : α → β) :
    ∀ l : List α,
      l.filterMap (fun r => if p r then none else some (f r)) =
        (l.filter (fun r => !p r)).map f := by
  intro l
  induction l with
  | nil => rfl
  | cons x xs ih =>
    by_cases h : p x
    · simp [List.filterMap_cons, List.filter_cons, h, ih]
    · simp [List.filterMap_cons, List.filter_cons, h, ih]

/-- C8: for a self-consistent candidate, the time-logic rule decides exactly
one `TIME_LOGIC_CHECK_CONFLICTED` violation — carrying the key of that sibling —
per stored sibling on the same (previous factory, product factory, company)
triple whose interval fails the fully-disjoint test, in store order; the
fully-disjoint test (strict inequality on all four comparisons in each
direction) is equivalent, for genuine intervals, to the candidate lying
entirely before or entirely after the sibling, so exact equality, containment
and partial overlap all conflict.  The call itself, however, surfaces HTTP
500 on such a conflict (the concrete conjunct) because emitting the
violation raises on the missing `error_data` field, instead of returning a
result carrying it as the claim states. -/
theorem c8_overlap_conflicts :
    (∀ (cand : KoujyouMasterBase) (store : List KoujyouMaster),
      cand.start_operation_date < cand.end_operation_date →
      timeLogicViolations cand store =
        ((store.filter (matchesTriple cand)).filter
            (fun r => !fullyDisjoint cand.start_operation_date
              cand.end_operation_date r.start_operation_date
              r.end_operation_date)).map conflictViolation) ∧
    (∀ a b c d : Nat, a < b → c < d →
      (fullyDisjoint a b c d = false ↔ ¬(b < c ∨ d < a))) ∧
    check_integrity sampleOverlap false false true [sampleRow] = .error 500 := by
  refine ⟨fun cand store h => ?_, fun a b c d hab hcd => ?_, rfl⟩
  · unfold timeLogicViolations getTimeRelatedRecords
    rw [if_neg (by omega :
      ¬ cand.start_operation_date ≥ cand.end_operation_date)]
    exact filterMap_if_eq_filter_map _ _ _
  · simp only [fullyDisjoint, Bool.or_eq_false_iff, Bool.and_eq_false_iff,
      decide_eq_false_iff_not, Nat.not_lt]
    omega

/-- Concrete instantiation of `c8_overlap_conflicts`: a candidate interval
[15, 25) against a stored sibling [10, 20) on the same triple, and the
boundary test at those dates. -/
theorem c8_overlap_conflicts_witness :
    timeLogicViolations sampleOverlap [sampleRow] =
      (([sampleRow].filter (matchesTriple sampleOverlap)).filter
          (fun r => !fullyDisjoint sampleOverlap.start_operation_date
            sampleOverlap.end_operation_date r.start_operation_date
            r.end_operation_date)).map conflictViolation ∧
    (fullyDisjoint 15 25 10 20 = false ↔ ¬(25 < 10 ∨ 20 < 15)) :=
  ⟨c8_overlap_conflicts.1 sampleOverlap [sampleRow] (by decide),
   c8_overlap_conflicts.2.1 15 25 10 20 (by decide) (by decide)⟩

/-! ### Claim C9 -/

/-- C9: the single-record factory create runs the explicit
`get_by_unique_keys` pre-check and returns HTTP 409 with the session
untouched — before attempting any insert — whenever the full natural key
already exists; the batch create path has no pre-check (it is commented out
in the source), so a duplicate-key payload reaches the insert and comes back
as a store-level per-record error with the class name of the store exception,
`IntegrityError` as its code, while the iteration continues over the
remaining records unchanged. -/
theorem c9_create_precheck_asymmetry :
    (∀ (s : DbSession KoujyouMaster) (d : KoujyouMasterBase),
      (getByUniqueKeys s.pending d).isSome = true →
      create_koujyou_master s d = (.error 409, s)) ∧
    (∀ (pending : List KoujyouMaster) (d : KoujyouMasterBase)
        (rest : List KoujyouMasterBase),
      koujyouRowFits d = true → (getByUniqueKeys pending d).isSome = true →
      createKoujyouLoop pending (d :: rest) =
        ((createKoujyouLoop pending rest).1,
         integrityErr d :: (createKoujyouLoop pending rest).2.1,
         (createKoujyouLoop pending rest).2.2)) := by
  constructor
  · intro s d h
    simp [create_koujyou_master, h]
  · intro pending d rest hf hk
    simp only [createKoujyouLoop, hf, hk, Bool.not_true, Bool.false_eq_true,
      if_false, if_true]

/-- Concrete instantiation of `c9_create_precheck_asymmetry` on a store
already holding the key of the payload. -/
theorem c9_create_precheck_asymmetry_witness :
    create_koujyou_master ⟨[sampleRow], [sampleRow]⟩ sampleRow =
      (.error 409, ⟨[sampleRow], [sampleRow]⟩) ∧
    createKoujyouLoop [sampleRow] [sampleRow] =
      ((createKoujyouLoop [sampleRow] ([] : List KoujyouMasterBase)).1,
       integrityErr sampleRow ::
         (createKoujyouLoop [sampleRow] ([] : List KoujyouMasterBase)).2.1,
       (createKoujyouLoop [sampleRow] ([] : List KoujyouMasterBase)).2.2) :=
  ⟨c9_create_precheck_asymmetry.1 ⟨[sampleRow], [sampleRow]⟩ sampleRow (by decide),
   c9_create_precheck_asymmetry.2 [sampleRow] sampleRow [] (by decide) (by decide)⟩

/-! ### Claim C10 -/

theorem getById_some {pending : List UserRow} {uid : Option String}
    {r : UserRow} (h : getById pending uid = some r) : uid = some r.id := by
  cases uid with
  | none => cases h
  | some i =>
    have h2 : (pending.filter (·.id == i)).head? = some r := h
    cases hf : pending.filter (·.id == i) with
    | nil => rw [hf] at h2; cases h2
    | cons x xs =>
      rw [hf] at h2
      injection h2 with h3
      subst h3
      have hx : x ∈ pending.filter (·.id == i) := by
        rw [hf]; exact List.mem_cons_self x xs
      have := (List.mem_filter.mp hx).2
      simp only [beq_iff_eq] at this
      rw [this]

theorem getByUniqueKeys_some {pending : List KoujyouMaster}
    {d : KoujyouMasterBase} {r : KoujyouMaster}
    (h : getByUniqueKeys pending d = some r) : matchesUniqueKeys d r = true := by
  unfold getByUniqueKeys at h
  cases hf : pending.filter (matchesUniqueKeys d) with
  | nil => rw [hf] at h; cases h
  | cons x xs =>
    rw [hf] at h
    injection h with h2
    subst h2
    have hx : x ∈ pending.filter (matchesUniqueKeys d) := by
      rw [hf]; exact List.mem_cons_self x xs
    exact (List.mem_filter.mp hx).2

theorem userUpdateLoop_outcomes :
    ∀ (inputs : List UserBase) (pending : List UserRow),
      ∃ o : List (Outcome UserRow UserBase),
        List.Forall₂ userUpdateTie inputs o ∧
        (userUpdateLoop pending inputs).1 = o.filterMap okOf ∧
        (userUpdateLoop pending inputs).2.1 = o.filterMap errOf := by
  intro inputs
  induction inputs with
  | nil => exact fun pending => ⟨[], List.Forall₂.nil, rfl, rfl⟩
  | cons d rest ih =>
    intro pending
    cases h : getById pending d.id with
    | none =>
      obtain ⟨o, htie, hok, herr⟩ := ih pending
      refine ⟨.err (notFoundErr "A record with the specified ID does not exist" d) :: o,
        List.Forall₂.cons rfl htie, ?_, ?_⟩
      · simp only [userUpdateLoop, h, List.filterMap_cons, okOf]; exact hok
      · simp only [userUpdateLoop, h, List.filterMap_cons, errOf]; rw [herr]
    | some dbItem =>
      obtain ⟨o, htie, hok, herr⟩ :=
        ih (replaceFirst (·.id == dbItem.id) (applyUserUpdate dbItem d) pending)
      refine ⟨.ok (applyUserUpdate dbItem d) :: o,
        List.Forall₂.cons
          ⟨show d.id = some dbItem.id from getById_some h, rfl⟩ htie, ?_, ?_⟩
      · simp only [userUpdateLoop, h, List.filterMap_cons, okOf]; rw [hok]
      · simp only [userUpdateLoop, h, List.filterMap_cons, errOf]; exact herr

theorem userCreateLoop_outcomes :
    ∀ (inputs : List UserBase) (pending : List UserRow) (n : Nat),
      ∃ o : List (Outcome UserRow UserBase),
        List.Forall₂ userCreateTie inputs o ∧
        (userCreateLoop pending n inputs).1 = o.filterMap okOf ∧
        (userCreateLoop pending n inputs).2.1 = o.filterMap errOf := by
  intro inputs
  induction inputs with
  | nil => exact fun pending n => ⟨[], List.Forall₂.nil, rfl, rfl⟩
  | cons d rest ih =>
    intro pending n
    by_cases h :
        (pending.filter (·.id == d.id.getD ("uuid-" ++ toString n))).isEmpty = true
    · obtain ⟨o, htie, hok, herr⟩ := ih
        (pending ++
          [{ id := d.id.getD ("uuid-" ++ toString n), name := d.name
             lastname := d.lastname, age := d.age, country := d.country
             home_address := d.home_address }]) (n + 1)
      refine ⟨.ok { id := d.id.getD ("uuid-" ++ toString n), name := d.name
                    lastname := d.lastname, age := d.age, country := d.country
                    home_address := d.home_address } :: o,
        List.Forall₂.cons ⟨rfl, fun i hi => by simp [hi]⟩ htie, ?_, ?_⟩
      · simp only [userCreateLoop, h, if_true, List.filterMap_cons, okOf]; rw [hok]
      · simp only [userCreateLoop, h, if_true, List.filterMap_cons, errOf]; exact herr
    · simp only [Bool.not_eq_true] at h
      obtain ⟨o, htie, hok, herr⟩ := ih pending (n + 1)
      refine ⟨.err (integrityErr d) :: o, List.Forall₂.cons rfl htie, ?_, ?_⟩
      · simp only [userCreateLoop, h, Bool.false_eq_true, if_false,
          List.filterMap_cons, okOf]
        exact hok
      · simp only [userCreateLoop, h, Bool.false_eq_true, if_false,
          List.filterMap_cons, errOf]
        rw [herr]

theorem userDeleteLoop_outcomes :
    ∀ (inputs : List UserBase) (pending : List UserRow),
      ∃ o : List (Outcome UserRow UserBase),
        List.Forall₂ userDeleteTie inputs o ∧
        (userDeleteLoop pending inputs).1 = o.filterMap okOf ∧
        (userDeleteLoop pending inputs).2.1 = o.filterMap errOf := by
  intro inputs
  induction inputs with
  | nil => exact fun pending => ⟨[], List.Forall₂.nil, rfl, rfl⟩
  | cons d rest ih =>
    intro pending
    cases h : getById pending d.id with
    | none =>
      obtain ⟨o, htie, hok, herr⟩ := ih pending
      refine ⟨.err (notFoundErr "A record with the specified ID does not exist" d) :: o,
        List.Forall₂.cons rfl htie, ?_, ?_⟩
      · simp only [userDeleteLoop, h, List.filterMap_cons, okOf]; exact hok
      · simp only [userDeleteLoop, h, List.filterMap_cons, errOf]; rw [herr]
    | some dbItem =>
      obtain ⟨o, htie, hok, herr⟩ := ih (removeFirst (·.id == dbItem.id) pending)
      refine ⟨.ok dbItem :: o, List.Forall₂.cons (getById_some h) htie, ?_, ?_⟩
      · simp only [userDeleteLoop, h, List.filterMap_cons, okOf]; rw [hok]
      · simp only [userDeleteLoop, h, List.filterMap_cons, errOf]; exact herr

theorem updateKoujyouLoop_outcomes :
    ∀ (inputs : List KoujyouMasterBase) (pending : List KoujyouMaster),
      ∃ o : List (Outcome KoujyouMaster KoujyouMasterBase),
        List.Forall₂ koujyouUpdateTie inputs o ∧
        (updateKoujyouLoop pending inputs).1 = o.filterMap okOf ∧
        (updateKoujyouLoop pending inputs).2.1 = o.filterMap errOf := by
  intro inputs
  induction inputs with
  | nil => exact fun pending => ⟨[], List.Forall₂.nil, rfl, rfl⟩
  | cons d rest ih =>
    intro pending
    cases h : getByUniqueKeys pending d with
    | none =>
      obtain ⟨o, htie, hok, herr⟩ := ih pending
      refine ⟨.skipped :: o, List.Forall₂.cons trivial htie, ?_, ?_⟩
      · simp only [updateKoujyouLoop, h, List.filterMap_cons, okOf]; exact hok
      · simp only [updateKoujyouLoop, h, List.filterMap_cons, errOf]; exact herr
    | some dbItem =>
      by_cases hf : koujyouRowFits d
      · obtain ⟨o, htie, hok, herr⟩ := ih (replaceFirst (matchesUniqueKeys d) d pending)
        refine ⟨.ok d :: o, List.Forall₂.cons rfl htie, ?_, ?_⟩
        · simp only [updateKoujyouLoop, h, hf, if_true, List.filterMap_cons, okOf]
          rw [hok]
        · simp only [updateKoujyouLoop, h, hf, if_true, List.filterMap_cons, errOf]
          exact herr
      · simp only [Bool.not_eq_true] at hf
        obtain ⟨o, htie, hok, herr⟩ := ih pending
        refine ⟨.err (dataErr d) :: o, List.Forall₂.cons rfl htie, ?_, ?_⟩
        · simp only [updateKoujyouLoop, h, hf, Bool.false_eq_true, if_false,
            List.filterMap_cons, okOf]
          exact hok
        · simp only [updateKoujyouLoop, h, hf, Bool.false_eq_true, if_false,
            List.filterMap_cons, errOf]
          rw [herr]

theorem createKoujyouLoop_outcomes :
    ∀ (inputs : List KoujyouMasterBase) (pending : List KoujyouMaster),
      ∃ o : List (Outcome KoujyouMaster KoujyouMasterBase),
        List.Forall₂ koujyouCreateTie inputs o ∧
        (createKoujyouLoop pending inputs).1 = o.filterMap okOf ∧
        (createKoujyouLoop pending inputs).2.1 = o.filterMap errOf := by
  intro inputs
  induction inputs with
  | nil => exact fun pending => ⟨[], List.Forall₂.nil, rfl, rfl⟩
  | cons d rest ih =>
    intro pending
    by_cases hf : koujyouRowFits d
    · by_cases hk : (getByUniqueKeys pending d).isSome = true
      · obtain ⟨o, htie, hok, herr⟩ := ih pending
        refine ⟨.err (integrityErr d) :: o, List.Forall₂.cons rfl htie, ?_, ?_⟩
        · simp only [createKoujyouLoop, hf, hk, Bool.not_true, Bool.false_eq_true,
            if_false, if_true, List.filterMap_cons, okOf]
          exact hok
        · simp only [createKoujyouLoop, hf, hk, Bool.not_true, Bool.false_eq_true,
            if_false, if_true, List.filterMap_cons, errOf]
          rw [herr]
      · simp only [Bool.not_eq_true] at hk
        obtain ⟨o, htie, hok, herr⟩ := ih (pending ++ [d])
        refine ⟨.ok d :: o, List.Forall₂.cons rfl htie, ?_, ?_⟩
        · simp only [createKoujyouLoop, hf, hk, Bool.not_true, Bool.false_eq_true,
            if_false, List.filterMap_cons, okOf]
          rw [hok]
        · simp only [createKoujyouLoop, hf, hk, Bool.not_true, Bool.false_eq_true,
            if_false, List.filterMap_cons, errOf]
          exact herr
    · simp only [Bool.not_eq_true] at hf
      obtain ⟨o, htie, hok, herr⟩ := ih pending
      refine ⟨.err (dataErr d) :: o, List.Forall₂.cons rfl htie, ?_, ?_⟩
      · simp only [createKoujyouLoop, hf, Bool.not_false, if_true,
          List.filterMap_cons, okOf]
        exact hok
      · simp only [createKoujyouLoop, hf, Bool.not_false, if_true,
          List.filterMap_cons, errOf]
        rw [herr]

theorem deleteKoujyouLoop_outcomes :
    ∀ (inputs : List KoujyouMasterBase) (pending : List KoujyouMaster),
      ∃ o : List (Outcome KoujyouMaster KoujyouMasterBase),
        List.Forall₂ koujyouDeleteTie inputs o ∧
        (deleteKoujyouLoop pending inputs).1 = o.filterMap okOf ∧
        (deleteKoujyouLoop pending inputs).2.1 = o.filterMap errOf := by
  intro inputs
  induction inputs with
  | nil => exact fun pending => ⟨[], List.Forall₂.nil, rfl, rfl⟩
  | cons d rest ih =>
    intro pending
    cases h : getByUniqueKeys pending d with
    | none =>
      obtain ⟨o, htie, hok, herr⟩ := ih pending
      refine ⟨.err (notFoundErr "A record with the specified primary key does not exist" d) :: o,
        List.Forall₂.cons rfl htie, ?_, ?_⟩
      · simp only [deleteKoujyouLoop, h, List.filterMap_cons, okOf]; exact hok
      · simp only [deleteKoujyouLoop, h, List.filterMap_cons, errOf]; rw [herr]
    | some dbItem =>
      obtain ⟨o, htie, hok, herr⟩ := ih (removeFirst (matchesUniqueKeys d) pending)
      refine ⟨.ok dbItem :: o, List.Forall₂.cons (getByUniqueKeys_some h) htie, ?_, ?_⟩
      · simp only [deleteKoujyouLoop, h, List.filterMap_cons, okOf]; rw [hok]
      · simp only [deleteKoujyouLoop, h, List.filterMap_cons, errOf]; exact herr

/-- C10: every batch mutation makes one in-order pass over its input,
recording at most one outcome per input occurrence (and none only for the
silently skipped absent keys of the factory batch update): there is an
outcome list tied to the input list pointwise by `List.Forall₂` — the
outcome at position i is an error entry carrying input i itself in its
`record` field, or a success row built from input i (its payload for the
factory create/update, a row matching its key for the deletes and the user
update, a row carrying its fields for the user create) — whose success
projection is exactly the returned `ok_records` and whose error projection
is exactly the returned `error_records`.  Both returned lists therefore
preserve the relative input order of the records they correspond to, and no
input occurrence contributes to both lists, each position holding a single
outcome. -/
theorem c10_order_preserving_partition :
    (∀ (s : DbSession UserRow) (inputs : List UserBase),
      (∃ o : List (Outcome UserRow UserBase),
        List.Forall₂ userUpdateTie inputs o ∧
        (update_user_batch s inputs).1.ok_records = o.filterMap okOf ∧
        (update_user_batch s inputs).1.error_records = o.filterMap errOf) ∧
      (∃ o : List (Outcome UserRow UserBase),
        List.Forall₂ userCreateTie inputs o ∧
        (create_multiple_user s inputs).1.ok_records = o.filterMap okOf ∧
        (create_multiple_user s inputs).1.error_records = o.filterMap errOf) ∧
      (∃ o : List (Outcome UserRow UserBase),
        List.Forall₂ userDeleteTie inputs o ∧
        (delete_multiple_user s inputs).1.ok_records = o.filterMap okOf ∧
        (delete_multiple_user s inputs).1.error_records = o.filterMap errOf)) ∧
    (∀ (s : DbSession KoujyouMaster) (inputs : List KoujyouMasterBase),
      (∃ o : List (Outcome KoujyouMaster KoujyouMasterBase),
        List.Forall₂ koujyouUpdateTie inputs o ∧
        (update_koujyou_master_batch s inputs).1.ok_records = o.filterMap okOf ∧
        (update_koujyou_master_batch s inputs).1.error_records = o.filterMap errOf) ∧
      (∃ o : List (Outcome KoujyouMaster KoujyouMasterBase),
        List.Forall₂ koujyouCreateTie inputs o ∧
        (create_multiple_koujyou_master s inputs).1.ok_records = o.filterMap okOf ∧
        (create_multiple_koujyou_master s inputs).1.error_records = o.filterMap errOf) ∧
      (∃ o : List (Outcome KoujyouMaster KoujyouMasterBase),
        List.Forall₂ koujyouDeleteTie inputs o ∧
        (delete_multiple_koujyou_master s inputs).1.ok_records = o.filterMap okOf ∧
        (delete_multiple_koujyou_master s inputs).1.error_records = o.filterMap errOf)) := by
  refine ⟨fun s inputs => ⟨?_, ?_, ?_⟩, fun s inputs => ⟨?_, ?_, ?_⟩⟩
  · exact userUpdateLoop_outcomes inputs s.pending
  · exact userCreateLoop_outcomes inputs s.pending 0
  · exact userDeleteLoop_outcomes inputs s.pending
  · exact updateKoujyouLoop_outcomes inputs s.pending
  · exact createKoujyouLoop_outcomes inputs s.pending
  · exact deleteKoujyouLoop_outcomes inputs s.pending


end Tanaoroshi
